import Mathlib

/-!
# postgeoda: the local join-count adaptors (`src/proxy_joincount.cpp`)

A shallow embedding of `pg_local_joincount` and `pg_bivariate_local_joincount`
and the properties of their densification, invocation and projection stages.

Conventions of the embedding.

* `double` values are only stored and copied by the adaptors, never computed
  with; they are modelled by rationals (`0.05` is the decimal literal).
* `int64` and `int` values are integers; the conversion to `size_t` is the
  explicit reduction modulo `2^64`.
* C arrays received by pointer (`fids`, `r`, `r1`, `r2`) are index → value
  functions of which the adaptors read the indices `0 .. N-1` only; `N` is the
  non-negative record count.
* `std::vector`s are lists; `operator[]` checks nothing in C++, so an access
  beyond the size is undefined behaviour and is modelled by the distinct
  outcome `Failure.fault`.
* The external statistic routines are parameters; a run records the
  invocations made to them.
-/

namespace PostGeoDa

/-! ## Data model -/

/-- Conversion of a signed integer to `size_t` (unsigned 64-bit): reduction modulo `2^64`. -/
def size_t (x : Int) : Nat := (x % 18446744073709551616).toNat

/-- How a call can end without a result: the host error report raised by
`lwerror` (format string and its argument), or an out-of-range vector access. -/
inductive Failure where
  | lwerror (fmt : String) (arg : Int)
  | fault
deriving DecidableEq, Repr

/-- Modelled from the spec: `lwerror` (declared in `libgeoda/pg/utils.h`, which is
not among the sources) reports a fatal error through the host's error facility
and aborts the remainder of the call. -/
def lwerror {α : Type} (fmt : String) (arg : Int) : Except Failure α :=
  Except.error (Failure.lwerror fmt arg)

/-- The integer a `%d` conversion prints for the argument `x`: `%d` reads an
`int`, that is the low 32 bits of `x` in two's complement. The formats of lines
35 and 83 apply it to the `int64` feature id. -/
def percent_d (x : Int) : Int := (x + 2147483648) % 4294967296 - 2147483648

/-- The output pair: `x` is the cluster indicator stored as a double, `y` the significance. -/
structure Point where
  x : ℚ
  y : ℚ
deriving DecidableEq, Repr

/-- Modelled from the spec: the weights handle built by `new BinWeight(bw)`
(`binweight.h` is not among the sources); the adaptors read its total
observation count only. -/
structure BinWeight where
  num_obs : Int
deriving DecidableEq, Repr

/-- Modelled from the spec: the result object of the external statistic
(`libgeoda/sa/LISA.h` is not among the sources), with the two per-slot arrays
returned by `GetClusterIndicators()` and `GetLocalSignificanceValues()`. -/
structure LISA where
  lisa_c : List Int
  lisa_p : List ℚ
deriving DecidableEq, Repr

/-- The arguments of one invocation of `gda_localjoincount`, in source order. -/
structure JoinCountCall where
  w : BinWeight
  data : List ℚ
  undefs : List Bool
  significance_cutoff : ℚ
  nCPUs : Int
  permutations : Int
  perm_method : String
  last_seed_used : Int
deriving DecidableEq, Repr

/-- The arguments of one invocation of `gda_localmultijoincount`, in source order. -/
structure MultiJoinCountCall where
  w : BinWeight
  data : List (List ℚ)
  undefs : List (List Bool)
  significance_cutoff : ℚ
  nCPUs : Int
  permutations : Int
  perm_method : String
  last_seed_used : Int
deriving DecidableEq, Repr

/-- What a call of an adaptor did: the invocations of the external routine it
made, in order, and how it ended (the returned array of pairs, or a failure). -/
structure Run (C : Type) where
  calls : List C
  result : Except Failure (List Point)

/-! ## Control flow and vector accesses -/

/-- The loop `for (size_t i = 0; i < n; ++i) body`: the state after the
iterations `0 .. n-1`, the first failing iteration aborting the loop. -/
def forLoop {σ : Type} (body : σ → Nat → Except Failure σ) : Nat → σ → Except Failure σ
  | 0, s => Except.ok s
  | n + 1, s =>
    match forLoop body n s with
    | Except.ok s' => body s' n
    | Except.error e => Except.error e

/-- The write `v[i] = x` on a `std::vector`. -/
def vecSet {α : Type} (v : List α) (i : Nat) (x : α) : Except Failure (List α) :=
  if i < v.length then Except.ok (v.set i x) else Except.error Failure.fault

/-- The read `v[i]` on a `std::vector`. -/
def vecGet {α : Type} (v : List α) (i : Nat) : Except Failure α :=
  match v[i]? with
  | some x => Except.ok x
  | none => Except.error Failure.fault

/-! ## `pg_local_joincount` -/

/-- The dense arrays of the univariate adaptor. -/
structure Dense where
  data : List ℚ
  undefs : List Bool
deriving DecidableEq, Repr

/-- Body of the densification loop of `pg_local_joincount` (lines 32-40). -/
def joincount_fill (fids : Nat → Int) (r : Nat → ℚ) (num_obs : Int)
    (st : Dense) (i : Nat) : Except Failure Dense :=
  let fid := size_t (fids i)
  if fid > size_t num_obs then
    lwerror "pg_local_joincount: fid not match in weights. fid > w.num_obs %d" (fids i)
  else
    match vecSet st.data fid (r i) with
    | Except.error e => Except.error e
    | Except.ok data =>
      match vecSet st.undefs fid false with
      | Except.error e => Except.error e
      | Except.ok undefs => Except.ok ⟨data, undefs⟩

/-- Body of the projection loop of both adaptors (lines 54-58 and 110-114):
the pair read at the record's feature id is stored at position `i`. -/
def project (fids : Nat → Int) (lisa : LISA) (result : List Point) (i : Nat) :
    Except Failure (List Point) :=
  match vecGet lisa.lisa_c (size_t (fids i)) with
  | Except.error e => Except.error e
  | Except.ok c =>
    match vecGet lisa.lisa_p (size_t (fids i)) with
    | Except.error e => Except.error e
    | Except.ok p => Except.ok (result ++ [⟨(c : ℚ), p⟩])

/-- The densification stage of `pg_local_joincount` (lines 25-40). -/
def joincount_densify (N : Nat) (fids : Nat → Int) (r : Nat → ℚ) (num_obs : Int) :
    Except Failure Dense :=
  forLoop (joincount_fill fids r num_obs) N
    ⟨List.replicate (size_t (num_obs + 1)) 0, List.replicate (size_t (num_obs + 1)) true⟩

/-- The univariate adaptor `pg_local_joincount(N, fids, r, bw)`; `w` stands for
`new BinWeight(bw)` and `gda_localjoincount` for the external routine. -/
def pg_local_joincount (gda_localjoincount : JoinCountCall → LISA)
    (N : Nat) (fids : Nat → Int) (r : Nat → ℚ) (w : BinWeight) : Run JoinCountCall :=
  match joincount_densify N fids r w.num_obs with
  | Except.error e => ⟨[], Except.error e⟩
  | Except.ok d =>
    let call : JoinCountCall := ⟨w, d.data, d.undefs, 0.05, 8, 999, "complete", 123456789⟩
    let lisa := gda_localjoincount call
    ⟨[call], forLoop (project fids lisa) N []⟩

/-! ## `pg_bivariate_local_joincount` -/

/-- The two dense value arrays written by the bivariate densification loop. -/
structure Dense2 where
  data1 : List ℚ
  data2 : List ℚ
deriving DecidableEq, Repr

/-- Body of the densification loop of `pg_bivariate_local_joincount` (lines 80-88). -/
def bivariate_fill (fids : Nat → Int) (r1 r2 : Nat → ℚ) (num_obs : Int)
    (st : Dense2) (i : Nat) : Except Failure Dense2 :=
  let fid := size_t (fids i)
  if fid > size_t num_obs then
    lwerror "pg_bivariate_local_joincount: fid not match in weights. fid > w.num_obs %d" (fids i)
  else
    match vecSet st.data1 fid (r1 i) with
    | Except.error e => Except.error e
    | Except.ok data1 =>
      match vecSet st.data2 fid (r2 i) with
      | Except.error e => Except.error e
      | Except.ok data2 => Except.ok ⟨data1, data2⟩

/-- The densification stage of `pg_bivariate_local_joincount` (lines 71-88). -/
def bivariate_densify (N : Nat) (fids : Nat → Int) (r1 r2 : Nat → ℚ) (num_obs : Int) :
    Except Failure Dense2 :=
  forLoop (bivariate_fill fids r1 r2 num_obs) N
    ⟨List.replicate (size_t (num_obs + 1)) 0, List.replicate (size_t (num_obs + 1)) 0⟩

/-- The bivariate adaptor `pg_bivariate_local_joincount(N, fids, r1, r2, bw)`;
`w` stands for `new BinWeight(bw)` and `gda_localmultijoincount` for the
external routine. -/
def pg_bivariate_local_joincount (gda_localmultijoincount : MultiJoinCountCall → LISA)
    (N : Nat) (fids : Nat → Int) (r1 r2 : Nat → ℚ) (w : BinWeight) : Run MultiJoinCountCall :=
  let undefs1 := List.replicate (size_t (w.num_obs + 1)) false
  let undefs2 := List.replicate (size_t (w.num_obs + 1)) false
  match bivariate_densify N fids r1 r2 w.num_obs with
  | Except.error e => ⟨[], Except.error e⟩
  | Except.ok d =>
    let call : MultiJoinCountCall :=
      ⟨w, [d.data1, d.data2], [undefs1, undefs2], 0.05, 8, 999, "complete", 123456789⟩
    let lisa := gda_localmultijoincount call
    ⟨[call], forLoop (project fids lisa) N []⟩

/-- A C array given by its first entries (entries beyond them read `d`). -/
def cArray {α : Type} (l : List α) (d : α) : Nat → α := fun i => l.getD i d

/-! ## The invariant of the densification loops -/

/-- The array of length `L`, initially `d` in every slot, after the writes
`arr[idx i] = v i` of the iterations `i < n`: an unwritten slot holds `d`, and a
written slot holds the value of the last iteration that wrote it. -/
def Scattered {α : Type} (idx : Nat → Nat) (v : Nat → α) (d : α) (L n : Nat)
    (arr : List α) : Prop :=
  arr.length = L ∧
  (∀ j, j < L → (∀ i, i < n → idx i ≠ j) → arr[j]? = some d) ∧
  (∀ i, i < n → (∀ k, i < k → k < n → idx k ≠ idx i) → arr[idx i]? = some (v i))

/-! ## Lemmas on `size_t`, loops and scattered writes -/

theorem size_t_eq_toNat {x : Int} (h0 : 0 ≤ x) (h1 : x < 18446744073709551616) :
    size_t x = x.toNat := by
  unfold size_t
  omega

theorem size_t_succ_num_obs {n : Int} (h0 : 0 ≤ n) (h1 : n < 9223372036854775808) :
    size_t (n + 1) = n.toNat + 1 := by
  unfold size_t
  omega

theorem size_t_le_iff {f n : Int} (hf0 : -9223372036854775808 ≤ f)
    (hf1 : f < 9223372036854775808) (h0 : 0 ≤ n) (h1 : n < 9223372036854775808) :
    size_t f ≤ size_t n ↔ 0 ≤ f ∧ f ≤ n := by
  unfold size_t
  omega

theorem size_t_valid {f n : Int} (h0 : 0 ≤ f) (h1 : f ≤ n)
    (h2 : n < 9223372036854775808) : size_t f = f.toNat := by
  unfold size_t
  omega

/-- A guarded loop: every iteration either raises its error (`bad i`) or keeps
the invariant. The loop then ends in a state satisfying the invariant when no
iteration is bad, and in the error of the first bad iteration otherwise. -/
theorem forLoop_guarded {σ : Type} (body : σ → Nat → Except Failure σ)
    (bad : Nat → Prop) (err : Nat → Failure) (Inv : Nat → σ → Prop) (s0 : σ)
    (h0 : Inv 0 s0)
    (hbad : ∀ s i, bad i → body s i = Except.error (err i))
    (hstep : ∀ s i, Inv i s → ¬ bad i → ∃ s', body s i = Except.ok s' ∧ Inv (i + 1) s')
    (n : Nat) :
    ((∀ i, i < n → ¬ bad i) ∧ ∃ st, forLoop body n s0 = Except.ok st ∧ Inv n st) ∨
    (∃ k, k < n ∧ (∀ i, i < k → ¬ bad i) ∧ bad k ∧
      forLoop body n s0 = Except.error (err k)) := by
  induction n with
  | zero => exact Or.inl ⟨fun i hi => absurd hi (Nat.not_lt_zero i), s0, rfl, h0⟩
  | succ n ih =>
    rcases ih with ⟨hall, st, hst, hinv⟩ | ⟨k, hk, hpre, hkbad, herr⟩
    · by_cases hb : bad n
      · refine Or.inr ⟨n, Nat.lt_succ_self n, hall, hb, ?_⟩
        simp only [forLoop, hst]
        exact hbad st n hb
      · obtain ⟨s', hs', hinv'⟩ := hstep st n hinv hb
        refine Or.inl ⟨?_, s', ?_, hinv'⟩
        · intro i hi
          rcases Nat.lt_succ_iff_lt_or_eq.mp hi with h | h
          · exact hall i h
          · exact h ▸ hb
        · simp only [forLoop, hst]
          exact hs'
    · refine Or.inr ⟨k, Nat.lt_succ_of_lt hk, hpre, hkbad, ?_⟩
      simp only [forLoop, herr]

theorem scattered_init {α : Type} (idx : Nat → Nat) (v : Nat → α) (d : α) (L : Nat) :
    Scattered idx v d L 0 (List.replicate L d) := by
  refine ⟨List.length_replicate L d, ?_, ?_⟩
  · intro j hj _
    exact List.getElem?_replicate_of_lt hj
  · intro i hi
    exact absurd hi (Nat.not_lt_zero i)

theorem scattered_step {α : Type} {idx : Nat → Nat} {v : Nat → α} {d : α} {L n : Nat}
    {arr : List α} (h : Scattered idx v d L n arr) (hn : idx n < L) :
    Scattered idx v d L (n + 1) (arr.set (idx n) (v n)) := by
  obtain ⟨hlen, hun, hlast⟩ := h
  refine ⟨by rw [List.length_set]; exact hlen, ?_, ?_⟩
  · intro j hj hno
    have hne : idx n ≠ j := hno n (Nat.lt_succ_self n)
    rw [List.getElem?_set_ne hne]
    exact hun j hj (fun i hi => hno i (Nat.lt_succ_of_lt hi))
  · intro i hi hk
    rcases Nat.lt_succ_iff_lt_or_eq.mp hi with h | h
    · have hne : idx n ≠ idx i := hk n h (Nat.lt_succ_self n)
      rw [List.getElem?_set_ne hne]
      exact hlast i h (fun k hik hkn => hk k hik (Nat.lt_succ_of_lt hkn))
    · subst h
      exact List.getElem?_set_self (by rw [hlen]; exact hn)

/-- Among the iterations `i < n` satisfying `p`, there is a last one. -/
theorem exists_last (p : Nat → Prop) (n : Nat) (h : ∃ i, i < n ∧ p i) :
    ∃ i, i < n ∧ p i ∧ ∀ k, i < k → k < n → ¬ p k := by
  induction n with
  | zero => obtain ⟨i, hi, _⟩ := h; exact absurd hi (Nat.not_lt_zero i)
  | succ n ih =>
    by_cases hp : p n
    · exact ⟨n, Nat.lt_succ_self n, hp, fun k hk hk' => by omega⟩
    · obtain ⟨i, hi, hpi⟩ := h
      have hin : i < n := by
        rcases Nat.lt_succ_iff_lt_or_eq.mp hi with h | h
        · exact h
        · exact absurd (h ▸ hpi) hp
      obtain ⟨m, hm, hpm, hlast⟩ := ih ⟨i, hin, hpi⟩
      refine ⟨m, Nat.lt_succ_of_lt hm, hpm, ?_⟩
      intro k hk hk'
      rcases Nat.lt_succ_iff_lt_or_eq.mp hk' with h | h
      · exact hlast k hk h
      · exact h ▸ hp

theorem scattered_congr {α : Type} {idx idx' : Nat → Nat} {v : Nat → α} {d : α}
    {L n : Nat} {arr : List α} (he : ∀ i, i < n → idx i = idx' i)
    (h : Scattered idx v d L n arr) : Scattered idx' v d L n arr := by
  obtain ⟨hlen, hun, hlast⟩ := h
  refine ⟨hlen, ?_, ?_⟩
  · intro j hj hno
    exact hun j hj (fun i hi => by rw [he i hi]; exact hno i hi)
  · intro i hi hk
    rw [← he i hi]
    exact hlast i hi (fun k hik hkn => by rw [he k hkn, he i hi]; exact hk k hik hkn)

/-- The densification loop of the univariate adaptor on arrays of length `L`
covering slot `num_obs`: either every record passes the check and the arrays are
the scattered values and flags, or the loop ends in the error of the first
record failing the check. -/
theorem joincount_loop_spec (fids : Nat → Int) (r : Nat → ℚ) (num_obs : Int) (L : Nat)
    (hL : size_t num_obs < L) (n : Nat) :
    ((∀ i, i < n → ¬ size_t (fids i) > size_t num_obs) ∧
      ∃ st, forLoop (joincount_fill fids r num_obs) n
          ⟨List.replicate L 0, List.replicate L true⟩ = Except.ok st ∧
        Scattered (fun i => size_t (fids i)) r 0 L n st.data ∧
        Scattered (fun i => size_t (fids i)) (fun _ => false) true L n st.undefs) ∨
    (∃ k, k < n ∧ (∀ i, i < k → ¬ size_t (fids i) > size_t num_obs) ∧
      size_t (fids k) > size_t num_obs ∧
      forLoop (joincount_fill fids r num_obs) n
          ⟨List.replicate L 0, List.replicate L true⟩ =
        Except.error (Failure.lwerror
          "pg_local_joincount: fid not match in weights. fid > w.num_obs %d" (fids k))) := by
  refine forLoop_guarded (joincount_fill fids r num_obs)
    (fun i => size_t (fids i) > size_t num_obs)
    (fun i => Failure.lwerror
      "pg_local_joincount: fid not match in weights. fid > w.num_obs %d" (fids i))
    (fun n st => Scattered (fun i => size_t (fids i)) r 0 L n st.data ∧
      Scattered (fun i => size_t (fids i)) (fun _ => false) true L n st.undefs)
    _ ⟨scattered_init _ _ _ _, scattered_init _ _ _ _⟩ ?_ ?_ n
  · intro s i hb
    simp only [joincount_fill, lwerror, if_pos hb]
  · intro s i hinv hb
    obtain ⟨hd, hu⟩ := hinv
    have hlt : size_t (fids i) < L := by omega
    have h1 : size_t (fids i) < s.data.length := by rw [hd.1]; exact hlt
    have h2 : size_t (fids i) < s.undefs.length := by rw [hu.1]; exact hlt
    refine ⟨⟨s.data.set (size_t (fids i)) (r i), s.undefs.set (size_t (fids i)) false⟩, ?_,
      scattered_step hd hlt, scattered_step hu hlt⟩
    simp only [joincount_fill, vecSet, if_neg hb, if_pos h1, if_pos h2]

/-- The densification loop of the bivariate adaptor, as `joincount_loop_spec`. -/
theorem bivariate_loop_spec (fids : Nat → Int) (r1 r2 : Nat → ℚ) (num_obs : Int) (L : Nat)
    (hL : size_t num_obs < L) (n : Nat) :
    ((∀ i, i < n → ¬ size_t (fids i) > size_t num_obs) ∧
      ∃ st, forLoop (bivariate_fill fids r1 r2 num_obs) n
          ⟨List.replicate L 0, List.replicate L 0⟩ = Except.ok st ∧
        Scattered (fun i => size_t (fids i)) r1 0 L n st.data1 ∧
        Scattered (fun i => size_t (fids i)) r2 0 L n st.data2) ∨
    (∃ k, k < n ∧ (∀ i, i < k → ¬ size_t (fids i) > size_t num_obs) ∧
      size_t (fids k) > size_t num_obs ∧
      forLoop (bivariate_fill fids r1 r2 num_obs) n
          ⟨List.replicate L 0, List.replicate L 0⟩ =
        Except.error (Failure.lwerror
          "pg_bivariate_local_joincount: fid not match in weights. fid > w.num_obs %d"
          (fids k))) := by
  refine forLoop_guarded (bivariate_fill fids r1 r2 num_obs)
    (fun i => size_t (fids i) > size_t num_obs)
    (fun i => Failure.lwerror
      "pg_bivariate_local_joincount: fid not match in weights. fid > w.num_obs %d" (fids i))
    (fun n st => Scattered (fun i => size_t (fids i)) r1 0 L n st.data1 ∧
      Scattered (fun i => size_t (fids i)) r2 0 L n st.data2)
    _ ⟨scattered_init _ _ _ _, scattered_init _ _ _ _⟩ ?_ ?_ n
  · intro s i hb
    simp only [bivariate_fill, lwerror, if_pos hb]
  · intro s i hinv hb
    obtain ⟨hd1, hd2⟩ := hinv
    have hlt : size_t (fids i) < L := by omega
    have h1 : size_t (fids i) < s.data1.length := by rw [hd1.1]; exact hlt
    have h2 : size_t (fids i) < s.data2.length := by rw [hd2.1]; exact hlt
    refine ⟨⟨s.data1.set (size_t (fids i)) (r1 i), s.data2.set (size_t (fids i)) (r2 i)⟩, ?_,
      scattered_step hd1 hlt, scattered_step hd2 hlt⟩
    simp only [bivariate_fill, vecSet, if_neg hb, if_pos h1, if_pos h2]

/-- The projection loop over records whose slots are all covered by the two
result arrays: it returns one pair per record, read at the record's slot. -/
theorem project_loop_spec (fids : Nat → Int) (lisa : LISA) (M : Nat)
    (hc : M < lisa.lisa_c.length) (hp : M < lisa.lisa_p.length) (n : Nat)
    (hv : ∀ i, i < n → size_t (fids i) ≤ M) :
    ∃ out, forLoop (project fids lisa) n [] = Except.ok out ∧ out.length = n ∧
      ∀ i, i < n → ∃ c p, lisa.lisa_c[size_t (fids i)]? = some c ∧
        lisa.lisa_p[size_t (fids i)]? = some p ∧ out[i]? = some ⟨(c : ℚ), p⟩ := by
  induction n with
  | zero => exact ⟨[], rfl, rfl, fun i hi => absurd hi (Nat.not_lt_zero i)⟩
  | succ n ih =>
    obtain ⟨out, hout, hlen, hall⟩ := ih (fun i hi => hv i (Nat.lt_succ_of_lt hi))
    have hn := hv n (Nat.lt_succ_self n)
    have hcn : size_t (fids n) < lisa.lisa_c.length := by omega
    have hpn : size_t (fids n) < lisa.lisa_p.length := by omega
    refine ⟨out ++ [⟨((lisa.lisa_c[size_t (fids n)] : Int) : ℚ), lisa.lisa_p[size_t (fids n)]⟩],
      ?_, ?_, ?_⟩
    · simp only [forLoop, hout, project, vecGet, List.getElem?_eq_getElem hcn,
        List.getElem?_eq_getElem hpn]
    · simp [hlen]
    · intro i hi
      rcases Nat.lt_succ_iff_lt_or_eq.mp hi with h | h
      · obtain ⟨c, p, h1, h2, h3⟩ := hall i h
        refine ⟨c, p, h1, h2, ?_⟩
        rw [List.getElem?_append_left (by rw [hlen]; exact h)]
        exact h3
      · subst h
        refine ⟨_, _, List.getElem?_eq_getElem hcn, List.getElem?_eq_getElem hpn, ?_⟩
        have hcat := List.getElem?_concat_length out
          (⟨((lisa.lisa_c[size_t (fids i)] : Int) : ℚ), lisa.lisa_p[size_t (fids i)]⟩ : Point)
        rw [hlen] at hcat
        exact hcat

theorem size_t_lt_succ {n : Int} (h0 : 0 ≤ n) (h1 : n < 9223372036854775808) :
    size_t n < size_t (n + 1) := by
  unfold size_t
  omega

/-- The two ways a call of the univariate adaptor proceeds: every record passes
the check, the external routine is invoked once on the scattered arrays and the
projection loop runs; or the first record failing the check aborts the call. -/
theorem joincount_run_cases (gda : JoinCountCall → LISA) (N : Nat) (fids : Nat → Int)
    (r : Nat → ℚ) (w : BinWeight) (h0 : 0 ≤ w.num_obs)
    (h1 : w.num_obs < 9223372036854775808) :
    ((∀ i, i < N → ¬ size_t (fids i) > size_t w.num_obs) ∧
      ∃ d, joincount_densify N fids r w.num_obs = Except.ok d ∧
        pg_local_joincount gda N fids r w =
          ⟨[⟨w, d.data, d.undefs, 0.05, 8, 999, "complete", 123456789⟩],
            forLoop (project fids
              (gda ⟨w, d.data, d.undefs, 0.05, 8, 999, "complete", 123456789⟩)) N []⟩ ∧
        Scattered (fun i => size_t (fids i)) r 0 (size_t (w.num_obs + 1)) N d.data ∧
        Scattered (fun i => size_t (fids i)) (fun _ => false) true
          (size_t (w.num_obs + 1)) N d.undefs) ∨
    (∃ k, k < N ∧ (∀ i, i < k → ¬ size_t (fids i) > size_t w.num_obs) ∧
      size_t (fids k) > size_t w.num_obs ∧
      joincount_densify N fids r w.num_obs = Except.error (Failure.lwerror
        "pg_local_joincount: fid not match in weights. fid > w.num_obs %d" (fids k)) ∧
      pg_local_joincount gda N fids r w = ⟨[], Except.error (Failure.lwerror
        "pg_local_joincount: fid not match in weights. fid > w.num_obs %d" (fids k))⟩) := by
  rcases joincount_loop_spec fids r w.num_obs (size_t (w.num_obs + 1))
      (size_t_lt_succ h0 h1) N with ⟨hall, st, hst, hd, hu⟩ | ⟨k, hk, hpre, hbad, herr⟩
  · refine Or.inl ⟨hall, st, hst, ?_, hd, hu⟩
    simp only [pg_local_joincount, joincount_densify, hst]
  · refine Or.inr ⟨k, hk, hpre, hbad, herr, ?_⟩
    simp only [pg_local_joincount, joincount_densify, herr]

/-- The two ways a call of the bivariate adaptor proceeds, as `joincount_run_cases`. -/
theorem bivariate_run_cases (gda : MultiJoinCountCall → LISA) (N : Nat) (fids : Nat → Int)
    (r1 r2 : Nat → ℚ) (w : BinWeight) (h0 : 0 ≤ w.num_obs)
    (h1 : w.num_obs < 9223372036854775808) :
    ((∀ i, i < N → ¬ size_t (fids i) > size_t w.num_obs) ∧
      ∃ d, bivariate_densify N fids r1 r2 w.num_obs = Except.ok d ∧
        pg_bivariate_local_joincount gda N fids r1 r2 w =
          ⟨[⟨w, [d.data1, d.data2],
              [List.replicate (size_t (w.num_obs + 1)) false,
                List.replicate (size_t (w.num_obs + 1)) false],
              0.05, 8, 999, "complete", 123456789⟩],
            forLoop (project fids
              (gda ⟨w, [d.data1, d.data2],
                [List.replicate (size_t (w.num_obs + 1)) false,
                  List.replicate (size_t (w.num_obs + 1)) false],
                0.05, 8, 999, "complete", 123456789⟩)) N []⟩ ∧
        Scattered (fun i => size_t (fids i)) r1 0 (size_t (w.num_obs + 1)) N d.data1 ∧
        Scattered (fun i => size_t (fids i)) r2 0 (size_t (w.num_obs + 1)) N d.data2) ∨
    (∃ k, k < N ∧ (∀ i, i < k → ¬ size_t (fids i) > size_t w.num_obs) ∧
      size_t (fids k) > size_t w.num_obs ∧
      bivariate_densify N fids r1 r2 w.num_obs = Except.error (Failure.lwerror
        "pg_bivariate_local_joincount: fid not match in weights. fid > w.num_obs %d"
        (fids k)) ∧
      pg_bivariate_local_joincount gda N fids r1 r2 w = ⟨[], Except.error (Failure.lwerror
        "pg_bivariate_local_joincount: fid not match in weights. fid > w.num_obs %d"
        (fids k))⟩) := by
  rcases bivariate_loop_spec fids r1 r2 w.num_obs (size_t (w.num_obs + 1))
      (size_t_lt_succ h0 h1) N with ⟨hall, st, hst, hd1, hd2⟩ | ⟨k, hk, hpre, hbad, herr⟩
  · refine Or.inl ⟨hall, st, hst, ?_, hd1, hd2⟩
    simp only [pg_bivariate_local_joincount, bivariate_densify, hst]
  · refine Or.inr ⟨k, hk, hpre, hbad, herr, ?_⟩
    simp only [pg_bivariate_local_joincount, bivariate_densify, herr]

/-- A record whose feature id is above the observation count fails the check. -/
theorem size_t_gt_of_above {f n : Int} (h0 : 0 ≤ n) (hf : n < f)
    (hf1 : f < 9223372036854775808) : size_t f > size_t n := by
  unfold size_t
  omega

/-- A record whose feature id is negative fails the check. -/
theorem size_t_gt_of_neg {f n : Int} (h0 : 0 ≤ n) (h1 : n < 9223372036854775808)
    (hf : f < 0) (hf0 : -9223372036854775808 ≤ f) : size_t f > size_t n := by
  unfold size_t
  omega

/-- A valid record passes the check. -/
theorem not_size_t_gt_of_valid {f n : Int} (hf0 : 0 ≤ f) (hf : f ≤ n)
    (h1 : n < 9223372036854775808) : ¬ size_t f > size_t n := by
  unfold size_t
  omega

/-- On a valid input the univariate adaptor invokes the external routine once,
on the arrays scattered from the records, and then runs the projection loop. -/
theorem joincount_valid_run (gda : JoinCountCall → LISA) (N : Nat) (fids : Nat → Int)
    (r : Nat → ℚ) (w : BinWeight) (h0 : 0 ≤ w.num_obs)
    (h1 : w.num_obs < 9223372036854775808)
    (hv : ∀ i, i < N → 0 ≤ fids i ∧ fids i ≤ w.num_obs) :
    ∃ d : Dense, pg_local_joincount gda N fids r w =
        ⟨[⟨w, d.data, d.undefs, 0.05, 8, 999, "complete", 123456789⟩],
          forLoop (project fids
            (gda ⟨w, d.data, d.undefs, 0.05, 8, 999, "complete", 123456789⟩)) N []⟩ ∧
      Scattered (fun i => (fids i).toNat) r 0 (w.num_obs.toNat + 1) N d.data ∧
      Scattered (fun i => (fids i).toNat) (fun _ => false) true
        (w.num_obs.toNat + 1) N d.undefs := by
  have hidx : ∀ i, i < N → size_t (fids i) = (fids i).toNat :=
    fun i hi => size_t_valid (hv i hi).1 (hv i hi).2 h1
  rcases joincount_run_cases gda N fids r w h0 h1 with
    ⟨_, d, _, hrun, hd, hu⟩ | ⟨k, hk, _, hbad, _⟩
  · rw [size_t_succ_num_obs h0 h1] at hd hu
    exact ⟨d, hrun, scattered_congr hidx hd, scattered_congr hidx hu⟩
  · exact absurd hbad (not_size_t_gt_of_valid (hv k hk).1 (hv k hk).2 h1)

/-- On a valid input the bivariate adaptor invokes the external routine once, on
the two arrays scattered from the records and two all-false masks, and then runs
the projection loop. -/
theorem bivariate_valid_run (gda : MultiJoinCountCall → LISA) (N : Nat) (fids : Nat → Int)
    (r1 r2 : Nat → ℚ) (w : BinWeight) (h0 : 0 ≤ w.num_obs)
    (h1 : w.num_obs < 9223372036854775808)
    (hv : ∀ i, i < N → 0 ≤ fids i ∧ fids i ≤ w.num_obs) :
    ∃ d : Dense2, pg_bivariate_local_joincount gda N fids r1 r2 w =
        ⟨[⟨w, [d.data1, d.data2],
            [List.replicate (w.num_obs.toNat + 1) false,
              List.replicate (w.num_obs.toNat + 1) false],
            0.05, 8, 999, "complete", 123456789⟩],
          forLoop (project fids
            (gda ⟨w, [d.data1, d.data2],
              [List.replicate (w.num_obs.toNat + 1) false,
                List.replicate (w.num_obs.toNat + 1) false],
              0.05, 8, 999, "complete", 123456789⟩)) N []⟩ ∧
      Scattered (fun i => (fids i).toNat) r1 0 (w.num_obs.toNat + 1) N d.data1 ∧
      Scattered (fun i => (fids i).toNat) r2 0 (w.num_obs.toNat + 1) N d.data2 := by
  have hidx : ∀ i, i < N → size_t (fids i) = (fids i).toNat :=
    fun i hi => size_t_valid (hv i hi).1 (hv i hi).2 h1
  rcases bivariate_run_cases gda N fids r1 r2 w h0 h1 with
    ⟨_, d, _, hrun, hd1, hd2⟩ | ⟨k, hk, _, hbad, _⟩
  · rw [size_t_succ_num_obs h0 h1] at hrun hd1 hd2
    exact ⟨d, hrun, scattered_congr hidx hd1, scattered_congr hidx hd2⟩
  · exact absurd hbad (not_size_t_gt_of_valid (hv k hk).1 (hv k hk).2 h1)

/-- The projection loop on a valid input and result arrays covering the slots
`0 .. num_obs`: one pair per record, read at the record's feature id. -/
theorem project_valid (fids : Nat → Int) (lisa : LISA) (num_obs : Int) (N : Nat)
    (h0 : 0 ≤ num_obs) (h1 : num_obs < 9223372036854775808)
    (hv : ∀ i, i < N → 0 ≤ fids i ∧ fids i ≤ num_obs)
    (hc : num_obs < (lisa.lisa_c.length : Int)) (hp : num_obs < (lisa.lisa_p.length : Int)) :
    ∃ out, forLoop (project fids lisa) N [] = Except.ok out ∧ out.length = N ∧
      ∀ i, i < N → ∃ c p, lisa.lisa_c[(fids i).toNat]? = some c ∧
        lisa.lisa_p[(fids i).toNat]? = some p ∧ out[i]? = some ⟨(c : ℚ), p⟩ := by
  have hidx : ∀ i, i < N → size_t (fids i) = (fids i).toNat :=
    fun i hi => size_t_valid (hv i hi).1 (hv i hi).2 h1
  obtain ⟨out, hout, hlen, hall⟩ := project_loop_spec fids lisa num_obs.toNat
    (by omega) (by omega) N (fun i hi => by rw [hidx i hi]; have := hv i hi; omega)
  refine ⟨out, hout, hlen, fun i hi => ?_⟩
  obtain ⟨c, p, hc', hp', ho⟩ := hall i hi
  rw [hidx i hi] at hc' hp'
  exact ⟨c, p, hc', hp', ho⟩

/-- An unpopulated slot of a scattered array holds the default. -/
theorem scattered_unpopulated {α : Type} {fids : Nat → Int} {v : Nat → α} {d : α}
    {L N : Nat} {arr : List α} (h : Scattered (fun i => (fids i).toNat) v d L N arr)
    (hv : ∀ i, i < N → 0 ≤ fids i) (j : Nat) (hj : j < L)
    (hno : ∀ i, i < N → fids i ≠ (j : Int)) : arr[j]? = some d := by
  refine h.2.1 j hj (fun i hi heq => hno i hi ?_)
  have := hv i hi
  simp only at heq
  omega

/-- The slot of a record that is the last one with its feature id holds that
record's value. -/
theorem scattered_last {α : Type} {fids : Nat → Int} {v : Nat → α} {d : α}
    {L N : Nat} {arr : List α} (h : Scattered (fun i => (fids i).toNat) v d L N arr)
    (hv : ∀ i, i < N → 0 ≤ fids i) (i : Nat) (hi : i < N)
    (hlast : ∀ k, i < k → k < N → fids k ≠ fids i) : arr[(fids i).toNat]? = some (v i) := by
  refine h.2.2 i hi (fun k hik hkn heq => hlast k hik hkn ?_)
  have := hv i hi
  have := hv k hkn
  simp only at heq
  omega

/-- A populated slot of a scattered array holds the value of the last record
with that feature id. -/
theorem scattered_populated {α : Type} {fids : Nat → Int} {v : Nat → α} {d : α}
    {L N : Nat} {arr : List α} (h : Scattered (fun i => (fids i).toNat) v d L N arr)
    (hv : ∀ i, i < N → 0 ≤ fids i) (j : Nat)
    (hex : ∃ i, i < N ∧ fids i = (j : Int)) :
    ∃ i, i < N ∧ fids i = (j : Int) ∧ (∀ k, i < k → k < N → fids k ≠ (j : Int)) ∧
      arr[j]? = some (v i) := by
  obtain ⟨i, hi, hij, hlast⟩ := exists_last (fun i => fids i = (j : Int)) N hex
  refine ⟨i, hi, hij, hlast, ?_⟩
  have hs := scattered_last h hv i hi (fun k hik hkn => by rw [hij]; exact hlast k hik hkn)
  have hji : (fids i).toNat = j := by omega
  rw [hji] at hs
  exact hs

/-! ## Error handling -/

/-- C1: in both adaptors, when some record `i < N` has a feature id strictly
greater than the observation count `num_obs ≥ 0`, the call ends in the adaptor's
out-of-range error, returns no result array, and the external join-count routine
is not invoked. -/
theorem C1_fid_above_num_obs_aborts (gda1 : JoinCountCall → LISA)
    (gda2 : MultiJoinCountCall → LISA) (N : Nat) (fids : Nat → Int) (r r1 r2 : Nat → ℚ)
    (w : BinWeight) (h0 : 0 ≤ w.num_obs) (i : Nat) (hi : i < N)
    (habove : w.num_obs < fids i) (hint : fids i < 9223372036854775808) :
    ((∃ arg, (pg_local_joincount gda1 N fids r w).result = Except.error (Failure.lwerror
          "pg_local_joincount: fid not match in weights. fid > w.num_obs %d" arg)) ∧
      (pg_local_joincount gda1 N fids r w).calls = []) ∧
    ((∃ arg, (pg_bivariate_local_joincount gda2 N fids r1 r2 w).result =
        Except.error (Failure.lwerror
          "pg_bivariate_local_joincount: fid not match in weights. fid > w.num_obs %d" arg)) ∧
      (pg_bivariate_local_joincount gda2 N fids r1 r2 w).calls = []) := by
  have h1 : w.num_obs < 9223372036854775808 := by omega
  have hbad : size_t (fids i) > size_t w.num_obs := size_t_gt_of_above h0 habove hint
  constructor
  · rcases joincount_run_cases gda1 N fids r w h0 h1 with ⟨hall, _⟩ | ⟨k, _, _, _, _, hrun⟩
    · exact absurd hbad (hall i hi)
    · rw [hrun]
      exact ⟨⟨fids k, rfl⟩, rfl⟩
  · rcases bivariate_run_cases gda2 N fids r1 r2 w h0 h1 with ⟨hall, _⟩ | ⟨k, _, _, _, _, hrun⟩
    · exact absurd hbad (hall i hi)
    · rw [hrun]
      exact ⟨⟨fids k, rfl⟩, rfl⟩

/-- C1, on the scenario `fids = [1, 99]` with observation count 5. -/
theorem C1_fid_above_num_obs_aborts_witness :
    (pg_local_joincount (fun _ => ⟨[], []⟩) 2 (cArray [1, 99] 0) (cArray [0, 1] 0) ⟨5⟩).calls
        = [] ∧
    (pg_bivariate_local_joincount (fun _ => ⟨[], []⟩) 2 (cArray [1, 99] 0) (cArray [0, 1] 0)
        (cArray [1, 1] 0) ⟨5⟩).calls = [] :=
  have h := C1_fid_above_num_obs_aborts (fun _ => ⟨[], []⟩) (fun _ => ⟨[], []⟩) 2
    (cArray [1, 99] 0) (cArray [0, 1] 0) (cArray [0, 1] 0) (cArray [1, 1] 0) ⟨5⟩
    (by decide) 1 (by decide) (by decide) (by decide)
  ⟨h.1.2, h.2.2⟩

/-- In both adaptors, when `k` is the smallest index whose feature id is out of
range (negative or above the observation count), the call fails with the error
whose format names the adaptor and whose argument is `fids k`. -/
theorem lwerror_argument_first_offender (gda1 : JoinCountCall → LISA)
    (gda2 : MultiJoinCountCall → LISA) (N : Nat) (fids : Nat → Int) (r r1 r2 : Nat → ℚ)
    (w : BinWeight) (h0 : 0 ≤ w.num_obs) (h1 : w.num_obs < 9223372036854775808)
    (k : Nat) (hk : k < N)
    (hint : -9223372036854775808 ≤ fids k ∧ fids k < 9223372036854775808)
    (hoff : fids k < 0 ∨ w.num_obs < fids k)
    (hfirst : ∀ i, i < k → 0 ≤ fids i ∧ fids i ≤ w.num_obs) :
    (pg_local_joincount gda1 N fids r w).result = Except.error (Failure.lwerror
        "pg_local_joincount: fid not match in weights. fid > w.num_obs %d" (fids k)) ∧
    (pg_bivariate_local_joincount gda2 N fids r1 r2 w).result = Except.error (Failure.lwerror
        "pg_bivariate_local_joincount: fid not match in weights. fid > w.num_obs %d"
        (fids k)) := by
  have hbad : size_t (fids k) > size_t w.num_obs := by
    rcases hoff with h | h
    · exact size_t_gt_of_neg h0 h1 h hint.1
    · exact size_t_gt_of_above h0 h hint.2
  have hsame : ∀ k', k' < N → (∀ i, i < k' → ¬ size_t (fids i) > size_t w.num_obs) →
      size_t (fids k') > size_t w.num_obs → k' = k := by
    intro k' _ hpre hbad'
    rcases Nat.lt_trichotomy k' k with h | h | h
    · exact absurd hbad' (not_size_t_gt_of_valid (hfirst k' h).1 (hfirst k' h).2 h1)
    · exact h
    · exact absurd hbad (hpre k h)
  constructor
  · rcases joincount_run_cases gda1 N fids r w h0 h1 with
      ⟨hall, _⟩ | ⟨k', hk', hpre, hbad', _, hrun⟩
    · exact absurd hbad (hall k hk)
    · rw [hrun, hsame k' hk' hpre hbad']
  · rcases bivariate_run_cases gda2 N fids r1 r2 w h0 h1 with
      ⟨hall, _⟩ | ⟨k', hk', hpre, hbad', _, hrun⟩
    · exact absurd hbad (hall k hk)
    · rw [hrun, hsame k' hk' hpre hbad']

/-- A feature id in the range of `int` is printed unchanged by `%d`. -/
theorem percent_d_of_int {x : Int} (h0 : -2147483648 ≤ x) (h1 : x < 2147483648) :
    percent_d x = x := by
  unfold percent_d
  omega

/-- C8: at `fids = [4294967303]` (`2^32 + 7`, the first and only offending
record) with observation count 5, both adaptors fail with the error whose format
names the adaptor and prints its argument, the feature id 4294967303, through
`%d`; that conversion prints 7, which is not the offending feature id. -/
theorem C8_error_prints_truncated_fid :
    (pg_local_joincount (fun _ => ⟨[], []⟩) 1 (cArray [4294967303] 0) (cArray [0] 0)
        ⟨5⟩).result = Except.error (Failure.lwerror
        "pg_local_joincount: fid not match in weights. fid > w.num_obs %d" 4294967303) ∧
    (pg_bivariate_local_joincount (fun _ => ⟨[], []⟩) 1 (cArray [4294967303] 0)
        (cArray [0] 0) (cArray [0] 0) ⟨5⟩).result = Except.error (Failure.lwerror
        "pg_bivariate_local_joincount: fid not match in weights. fid > w.num_obs %d"
        4294967303) ∧
    percent_d 4294967303 = 7 ∧
    percent_d (cArray [4294967303] 0 0) ≠ cArray [4294967303] 0 0 := by
  refine ⟨rfl, rfl, ?_, ?_⟩
  · decide
  · decide

/-! ## Valid inputs: densification and projection -/

/-- C2: in both adaptors, on a valid input and for an external routine whose two
result arrays cover the slots `0 .. num_obs`, the call succeeds, returns exactly
`N` pairs, and the `i`-th pair is `(c[fids i], p[fids i])` read in the result of
the one invocation made. -/
theorem C2_output_maps_fids_through_results (gda1 : JoinCountCall → LISA)
    (gda2 : MultiJoinCountCall → LISA) (N : Nat) (fids : Nat → Int) (r r1 r2 : Nat → ℚ)
    (w : BinWeight) (h0 : 0 ≤ w.num_obs) (h1 : w.num_obs < 9223372036854775808)
    (hv : ∀ i, i < N → 0 ≤ fids i ∧ fids i ≤ w.num_obs)
    (hc1 : ∀ a, w.num_obs < ((gda1 a).lisa_c.length : Int) ∧
      w.num_obs < ((gda1 a).lisa_p.length : Int))
    (hc2 : ∀ a, w.num_obs < ((gda2 a).lisa_c.length : Int) ∧
      w.num_obs < ((gda2 a).lisa_p.length : Int)) :
    (∃ call out, (pg_local_joincount gda1 N fids r w).calls = [call] ∧
      (pg_local_joincount gda1 N fids r w).result = Except.ok out ∧ out.length = N ∧
      ∀ i, i < N → ∃ c p, (gda1 call).lisa_c[(fids i).toNat]? = some c ∧
        (gda1 call).lisa_p[(fids i).toNat]? = some p ∧ out[i]? = some ⟨(c : ℚ), p⟩) ∧
    (∃ call out, (pg_bivariate_local_joincount gda2 N fids r1 r2 w).calls = [call] ∧
      (pg_bivariate_local_joincount gda2 N fids r1 r2 w).result = Except.ok out ∧
      out.length = N ∧
      ∀ i, i < N → ∃ c p, (gda2 call).lisa_c[(fids i).toNat]? = some c ∧
        (gda2 call).lisa_p[(fids i).toNat]? = some p ∧ out[i]? = some ⟨(c : ℚ), p⟩) := by
  constructor
  · obtain ⟨d, hrun, _, _⟩ := joincount_valid_run gda1 N fids r w h0 h1 hv
    obtain ⟨out, hout, hlen, hall⟩ := project_valid fids
      (gda1 ⟨w, d.data, d.undefs, 0.05, 8, 999, "complete", 123456789⟩) w.num_obs N h0 h1 hv
      (hc1 _).1 (hc1 _).2
    rw [hrun]
    exact ⟨_, out, rfl, hout, hlen, hall⟩
  · obtain ⟨d, hrun, _, _⟩ := bivariate_valid_run gda2 N fids r1 r2 w h0 h1 hv
    obtain ⟨out, hout, hlen, hall⟩ := project_valid fids
      (gda2 ⟨w, [d.data1, d.data2],
        [List.replicate (w.num_obs.toNat + 1) false,
          List.replicate (w.num_obs.toNat + 1) false],
        0.05, 8, 999, "complete", 123456789⟩) w.num_obs N h0 h1 hv (hc2 _).1 (hc2 _).2
    rw [hrun]
    exact ⟨_, out, rfl, hout, hlen, hall⟩

/-- C2, on the scenario `fids = [1, 2, 3]`, `values = [0, 1, 1]` with observation
count 3: three pairs come back, in input order. -/
theorem C2_output_maps_fids_through_results_witness :
    (∃ call out, (pg_local_joincount (fun _ => ⟨[0, 0, 1, 1], [1, 1, 0, 0]⟩) 3
        (cArray [1, 2, 3] 0) (cArray [0, 1, 1] 0) ⟨3⟩).calls = [call] ∧
      (pg_local_joincount (fun _ => ⟨[0, 0, 1, 1], [1, 1, 0, 0]⟩) 3
        (cArray [1, 2, 3] 0) (cArray [0, 1, 1] 0) ⟨3⟩).result = Except.ok out ∧
      out.length = 3) ∧
    (∃ call out, (pg_bivariate_local_joincount (fun _ => ⟨[0, 0, 1, 1], [1, 1, 0, 0]⟩) 3
        (cArray [1, 2, 3] 0) (cArray [0, 1, 1] 0) (cArray [1, 1, 1] 0) ⟨3⟩).calls = [call] ∧
      (pg_bivariate_local_joincount (fun _ => ⟨[0, 0, 1, 1], [1, 1, 0, 0]⟩) 3
        (cArray [1, 2, 3] 0) (cArray [0, 1, 1] 0) (cArray [1, 1, 1] 0) ⟨3⟩).result
          = Except.ok out ∧
      out.length = 3) :=
  have h := C2_output_maps_fids_through_results (fun _ => ⟨[0, 0, 1, 1], [1, 1, 0, 0]⟩)
    (fun _ => ⟨[0, 0, 1, 1], [1, 1, 0, 0]⟩) 3 (cArray [1, 2, 3] 0) (cArray [0, 1, 1] 0)
    (cArray [0, 1, 1] 0) (cArray [1, 1, 1] 0) ⟨3⟩ (by decide) (by decide) (by decide)
    (fun _ => by simp) (fun _ => by simp)
  ⟨h.1.imp fun _ hc => hc.imp fun _ ho => ⟨ho.1, ho.2.1, ho.2.2.1⟩,
    h.2.imp fun _ hc => hc.imp fun _ ho => ⟨ho.1, ho.2.1, ho.2.2.1⟩⟩

/-- C3: on a valid input the univariate adaptor hands the external routine a
value array and an undefined mask of length `num_obs + 1`; a slot no record
names holds value 0 and undefined = true, and a slot some record names has
undefined = false and holds the value of a record with that feature id. -/
theorem C3_univariate_dense_arrays (gda : JoinCountCall → LISA) (N : Nat)
    (fids : Nat → Int) (r : Nat → ℚ) (w : BinWeight) (h0 : 0 ≤ w.num_obs)
    (h1 : w.num_obs < 9223372036854775808)
    (hv : ∀ i, i < N → 0 ≤ fids i ∧ fids i ≤ w.num_obs) :
    ∃ call, (pg_local_joincount gda N fids r w).calls = [call] ∧
      (call.data.length : Int) = w.num_obs + 1 ∧
      (call.undefs.length : Int) = w.num_obs + 1 ∧
      ∀ j : Nat, (j : Int) ≤ w.num_obs →
        ((∀ i, i < N → fids i ≠ (j : Int)) →
          call.data[j]? = some 0 ∧ call.undefs[j]? = some true) ∧
        ((∃ i, i < N ∧ fids i = (j : Int)) →
          call.undefs[j]? = some false ∧
          ∃ i, i < N ∧ fids i = (j : Int) ∧ call.data[j]? = some (r i)) := by
  obtain ⟨d, hrun, hd, hu⟩ := joincount_valid_run gda N fids r w h0 h1 hv
  have hv0 : ∀ i, i < N → 0 ≤ fids i := fun i hi => (hv i hi).1
  rw [hrun]
  refine ⟨_, rfl, ?_, ?_, ?_⟩
  · have := hd.1
    simp only
    omega
  · have := hu.1
    simp only
    omega
  · intro j hj
    have hjL : j < w.num_obs.toNat + 1 := by omega
    refine ⟨fun hno => ⟨scattered_unpopulated hd hv0 j hjL hno,
      scattered_unpopulated hu hv0 j hjL hno⟩, fun hex => ?_⟩
    obtain ⟨i, hi, hij, _, hval⟩ := scattered_populated hd hv0 j hex
    obtain ⟨_, _, _, _, hflag⟩ := scattered_populated hu hv0 j hex
    exact ⟨hflag, i, hi, hij, hval⟩

/-- C3, on `fids = [1, 3]`, `values = [7, 9]` with observation count 3: the
arrays have four slots each. -/
theorem C3_univariate_dense_arrays_witness :
    ∃ call, (pg_local_joincount (fun _ => ⟨[0, 0, 1, 1], [1, 1, 0, 0]⟩) 2
        (cArray [1, 3] 0) (cArray [7, 9] 0) ⟨3⟩).calls = [call] ∧
      (call.data.length : Int) = 4 ∧ (call.undefs.length : Int) = 4 :=
  (C3_univariate_dense_arrays (fun _ => ⟨[0, 0, 1, 1], [1, 1, 0, 0]⟩) 2
    (cArray [1, 3] 0) (cArray [7, 9] 0) ⟨3⟩ (by decide) (by decide) (by decide)).imp
    fun _ hc => ⟨hc.1, hc.2.1, hc.2.2.1⟩

/-- C5: on a valid input the bivariate adaptor hands the external routine an
ordered collection of exactly two dense value arrays, the first scattered from
`r1` and the second from `r2`, each of length `num_obs + 1` with unpopulated
slots equal to 0, together with exactly two undefined masks of length
`num_obs + 1` that are false in every slot. -/
theorem C5_bivariate_dense_arrays (gda : MultiJoinCountCall → LISA) (N : Nat)
    (fids : Nat → Int) (r1 r2 : Nat → ℚ) (w : BinWeight) (h0 : 0 ≤ w.num_obs)
    (h1 : w.num_obs < 9223372036854775808)
    (hv : ∀ i, i < N → 0 ≤ fids i ∧ fids i ≤ w.num_obs) :
    ∃ call data1 data2 undefs1 undefs2,
      (pg_bivariate_local_joincount gda N fids r1 r2 w).calls = [call] ∧
      call.data = [data1, data2] ∧ call.undefs = [undefs1, undefs2] ∧
      (data1.length : Int) = w.num_obs + 1 ∧ (data2.length : Int) = w.num_obs + 1 ∧
      (undefs1.length : Int) = w.num_obs + 1 ∧ (undefs2.length : Int) = w.num_obs + 1 ∧
      (∀ j : Nat, (j : Int) ≤ w.num_obs → (∀ i, i < N → fids i ≠ (j : Int)) →
        data1[j]? = some 0 ∧ data2[j]? = some 0) ∧
      (∀ i, i < N → (∀ k, i < k → k < N → fids k ≠ fids i) →
        data1[(fids i).toNat]? = some (r1 i) ∧ data2[(fids i).toNat]? = some (r2 i)) ∧
      (∀ j : Nat, (j : Int) ≤ w.num_obs →
        undefs1[j]? = some false ∧ undefs2[j]? = some false) := by
  obtain ⟨d, hrun, hd1, hd2⟩ := bivariate_valid_run gda N fids r1 r2 w h0 h1 hv
  have hv0 : ∀ i, i < N → 0 ≤ fids i := fun i hi => (hv i hi).1
  rw [hrun]
  refine ⟨_, d.data1, d.data2, List.replicate (w.num_obs.toNat + 1) false,
    List.replicate (w.num_obs.toNat + 1) false, rfl, rfl, rfl, ?_, ?_, ?_, ?_, ?_, ?_, ?_⟩
  · have := hd1.1
    omega
  · have := hd2.1
    omega
  · rw [List.length_replicate]
    omega
  · rw [List.length_replicate]
    omega
  · intro j hj hno
    have hjL : j < w.num_obs.toNat + 1 := by omega
    exact ⟨scattered_unpopulated hd1 hv0 j hjL hno, scattered_unpopulated hd2 hv0 j hjL hno⟩
  · intro i hi hlast
    exact ⟨scattered_last hd1 hv0 i hi hlast, scattered_last hd2 hv0 i hi hlast⟩
  · intro j hj
    have hjL : j < w.num_obs.toNat + 1 := by omega
    exact ⟨List.getElem?_replicate_of_lt hjL, List.getElem?_replicate_of_lt hjL⟩

/-- C5, on the scenario `fids = [1, 2]`, `values1 = values2 = [1, 1]` with
observation count 2. -/
theorem C5_bivariate_dense_arrays_witness :
    (pg_bivariate_local_joincount (fun _ => ⟨[0, 1, 1], [1, 0, 0]⟩) 2
        (cArray [1, 2] 0) (cArray [1, 1] 0) (cArray [1, 1] 0) ⟨2⟩).calls.length = 1 :=
  (C5_bivariate_dense_arrays (fun _ => ⟨[0, 1, 1], [1, 0, 0]⟩) 2
    (cArray [1, 2] 0) (cArray [1, 1] 0) (cArray [1, 1] 0) ⟨2⟩ (by decide) (by decide)
    (by decide)).elim fun _ h => h.elim fun _ h => h.elim fun _ h => h.elim fun _ h =>
      h.elim fun _ h => by rw [h.1]; rfl

/-- C6 fails for the bivariate adaptor: with the single record `fid = 1` and
observation count 1, no record has feature id 0, yet both masks handed to the
external routine are false at slot 0 (and everywhere). -/
theorem C6_bivariate_mask_counterexample :
    cArray [1] 0 0 ≠ (0 : Int) ∧
    (pg_bivariate_local_joincount (fun _ => ⟨[0, 1], [1, 0]⟩) 1
        (cArray [1] 0) (cArray [1] 0) (cArray [1] 0) ⟨1⟩).calls.map MultiJoinCountCall.undefs
      = [[[false, false], [false, false]]] := by
  constructor
  · decide
  · rfl

/-- C6, amended: in the univariate adaptor the value array and its undefined
mask have the same length and, on a valid input, the mask is true at a slot
`j` in `0 .. num_obs` exactly when no record has feature id `j`; in the bivariate
adaptor each of the two value arrays is paired with a mask of the same length
that is false at every slot, populated or not. -/
theorem C6_masks_amended (gda1 : JoinCountCall → LISA)
    (gda2 : MultiJoinCountCall → LISA) (N : Nat) (fids : Nat → Int) (r r1 r2 : Nat → ℚ)
    (w : BinWeight) (h0 : 0 ≤ w.num_obs) (h1 : w.num_obs < 9223372036854775808)
    (hv : ∀ i, i < N → 0 ≤ fids i ∧ fids i ≤ w.num_obs) :
    (∃ call, (pg_local_joincount gda1 N fids r w).calls = [call] ∧
      call.undefs.length = call.data.length ∧
      ∀ j : Nat, (j : Int) ≤ w.num_obs →
        (call.undefs[j]? = some true ↔ ∀ i, i < N → fids i ≠ (j : Int))) ∧
    (∃ call data1 data2 undefs1 undefs2,
      (pg_bivariate_local_joincount gda2 N fids r1 r2 w).calls = [call] ∧
      call.data = [data1, data2] ∧ call.undefs = [undefs1, undefs2] ∧
      undefs1.length = data1.length ∧ undefs2.length = data2.length ∧
      ∀ j : Nat, (j : Int) ≤ w.num_obs →
        undefs1[j]? = some false ∧ undefs2[j]? = some false) := by
  have hv0 : ∀ i, i < N → 0 ≤ fids i := fun i hi => (hv i hi).1
  constructor
  · obtain ⟨d, hrun, hd, hu⟩ := joincount_valid_run gda1 N fids r w h0 h1 hv
    rw [hrun]
    refine ⟨_, rfl, by rw [hu.1, hd.1], ?_⟩
    intro j hj
    have hjL : j < w.num_obs.toNat + 1 := by omega
    constructor
    · intro htrue i hi heq
      obtain ⟨_, _, _, _, hflag⟩ := scattered_populated hu hv0 j ⟨i, hi, heq⟩
      rw [htrue] at hflag
      exact Bool.noConfusion (Option.some.inj hflag)
    · intro hno
      exact scattered_unpopulated hu hv0 j hjL hno
  · obtain ⟨d, hrun, hd1, hd2⟩ := bivariate_valid_run gda2 N fids r1 r2 w h0 h1 hv
    rw [hrun]
    refine ⟨_, d.data1, d.data2, List.replicate (w.num_obs.toNat + 1) false,
      List.replicate (w.num_obs.toNat + 1) false, rfl, rfl, rfl, ?_, ?_, ?_⟩
    · rw [List.length_replicate, hd1.1]
    · rw [List.length_replicate, hd2.1]
    · intro j hj
      have hjL : j < w.num_obs.toNat + 1 := by omega
      exact ⟨List.getElem?_replicate_of_lt hjL, List.getElem?_replicate_of_lt hjL⟩

/-- C6 amended, on the single record `fid = 1` with observation count 1. -/
theorem C6_masks_amended_witness :
    (pg_local_joincount (fun _ => ⟨[0, 1], [1, 0]⟩) 1
        (cArray [1] 0) (cArray [1] 0) ⟨1⟩).calls.length = 1 ∧
    (pg_bivariate_local_joincount (fun _ => ⟨[0, 1], [1, 0]⟩) 1
        (cArray [1] 0) (cArray [1] 0) (cArray [1] 0) ⟨1⟩).calls.length = 1 :=
  have h := C6_masks_amended (fun _ => ⟨[0, 1], [1, 0]⟩) (fun _ => ⟨[0, 1], [1, 0]⟩) 1
    (cArray [1] 0) (cArray [1] 0) (cArray [1] 0) (cArray [1] 0) ⟨1⟩ (by decide) (by decide)
    (by decide)
  ⟨h.1.elim fun _ h => by rw [h.1]; rfl,
    h.2.elim fun _ h => h.elim fun _ h => h.elim fun _ h => h.elim fun _ h =>
      h.elim fun _ h => by rw [h.1]; rfl⟩

/-- C7: in both adaptors, on a valid input, the configuration handed to the
external routine is the same whatever the input: significance cutoff 0.05
(= 1/20), 8 workers, 999 permutations, method "complete", seed 123456789. -/
theorem C7_fixed_configuration (gda1 : JoinCountCall → LISA)
    (gda2 : MultiJoinCountCall → LISA) (N : Nat) (fids : Nat → Int) (r r1 r2 : Nat → ℚ)
    (w : BinWeight) (h0 : 0 ≤ w.num_obs) (h1 : w.num_obs < 9223372036854775808)
    (hv : ∀ i, i < N → 0 ≤ fids i ∧ fids i ≤ w.num_obs) :
    (∃ call, (pg_local_joincount gda1 N fids r w).calls = [call] ∧
      call.significance_cutoff = 0.05 ∧ call.significance_cutoff = 1 / 20 ∧
      call.nCPUs = 8 ∧ call.permutations = 999 ∧ call.perm_method = "complete" ∧
      call.last_seed_used = 123456789) ∧
    (∃ call, (pg_bivariate_local_joincount gda2 N fids r1 r2 w).calls = [call] ∧
      call.significance_cutoff = 0.05 ∧ call.significance_cutoff = 1 / 20 ∧
      call.nCPUs = 8 ∧ call.permutations = 999 ∧ call.perm_method = "complete" ∧
      call.last_seed_used = 123456789) := by
  have hcut : (0.05 : ℚ) = 1 / 20 := by norm_num
  constructor
  · obtain ⟨d, hrun, _, _⟩ := joincount_valid_run gda1 N fids r w h0 h1 hv
    rw [hrun]
    exact ⟨_, rfl, rfl, hcut, rfl, rfl, rfl, rfl⟩
  · obtain ⟨d, hrun, _, _⟩ := bivariate_valid_run gda2 N fids r1 r2 w h0 h1 hv
    rw [hrun]
    exact ⟨_, rfl, rfl, hcut, rfl, rfl, rfl, rfl⟩

/-- C7, on the scenario `fids = [1, 2, 3]` with observation count 3. -/
theorem C7_fixed_configuration_witness :
    (pg_local_joincount (fun _ => ⟨[0, 0, 1, 1], [1, 1, 0, 0]⟩) 3
        (cArray [1, 2, 3] 0) (cArray [0, 1, 1] 0) ⟨3⟩).calls.map JoinCountCall.permutations
      = [999] ∧
    (pg_bivariate_local_joincount (fun _ => ⟨[0, 0, 1, 1], [1, 1, 0, 0]⟩) 3
        (cArray [1, 2, 3] 0) (cArray [0, 1, 1] 0) (cArray [1, 1, 1] 0) ⟨3⟩).calls.map
          MultiJoinCountCall.permutations = [999] :=
  have h := C7_fixed_configuration (fun _ => ⟨[0, 0, 1, 1], [1, 1, 0, 0]⟩)
    (fun _ => ⟨[0, 0, 1, 1], [1, 1, 0, 0]⟩) 3 (cArray [1, 2, 3] 0) (cArray [0, 1, 1] 0)
    (cArray [0, 1, 1] 0) (cArray [1, 1, 1] 0) ⟨3⟩ (by decide) (by decide) (by decide)
  ⟨h.1.elim fun _ h => by rw [h.1, List.map_cons, List.map_nil, h.2.2.2.2.1],
    h.2.elim fun _ h => by rw [h.1, List.map_cons, List.map_nil, h.2.2.2.2.1]⟩

/-! ## Signed feature ids and memory safety -/

/-- C9: in both adaptors, with `0 ≤ num_obs < 2^63` and 64-bit signed feature
ids, a negative id is converted to `fid + 2^64`, which exceeds `num_obs`, so the
call is rejected with the out-of-range error; a call succeeds only if every
feature id lies in `0 .. num_obs`; and feature id 0 is accepted on a valid input
and populates dense slot 0. -/
theorem C9_negative_fid_rejected (gda1 : JoinCountCall → LISA)
    (gda2 : MultiJoinCountCall → LISA) (N : Nat) (fids : Nat → Int) (r r1 r2 : Nat → ℚ)
    (w : BinWeight) (h0 : 0 ≤ w.num_obs) (h1 : w.num_obs < 9223372036854775808)
    (hint : ∀ i, i < N → -9223372036854775808 ≤ fids i ∧ fids i < 9223372036854775808) :
    (∀ i, i < N → fids i < 0 →
      (size_t (fids i) : Int) = fids i + 18446744073709551616 ∧
      size_t (fids i) > size_t w.num_obs) ∧
    ((∃ i, i < N ∧ fids i < 0) →
      (∃ arg, (pg_local_joincount gda1 N fids r w).result = Except.error (Failure.lwerror
        "pg_local_joincount: fid not match in weights. fid > w.num_obs %d" arg)) ∧
      (∃ arg, (pg_bivariate_local_joincount gda2 N fids r1 r2 w).result =
        Except.error (Failure.lwerror
          "pg_bivariate_local_joincount: fid not match in weights. fid > w.num_obs %d" arg))) ∧
    (∀ out, (pg_local_joincount gda1 N fids r w).result = Except.ok out →
      ∀ i, i < N → 0 ≤ fids i ∧ fids i ≤ w.num_obs) ∧
    (∀ out, (pg_bivariate_local_joincount gda2 N fids r1 r2 w).result = Except.ok out →
      ∀ i, i < N → 0 ≤ fids i ∧ fids i ≤ w.num_obs) ∧
    ((∀ i, i < N → 0 ≤ fids i ∧ fids i ≤ w.num_obs) → (∃ i, i < N ∧ fids i = 0) →
      (∃ call, (pg_local_joincount gda1 N fids r w).calls = [call] ∧
        call.undefs[0]? = some false ∧
        ∃ i, i < N ∧ fids i = 0 ∧ call.data[0]? = some (r i)) ∧
      (∃ call data1 data2, (pg_bivariate_local_joincount gda2 N fids r1 r2 w).calls = [call] ∧
        call.data = [data1, data2] ∧
        ∃ i, i < N ∧ fids i = 0 ∧ data1[0]? = some (r1 i) ∧ data2[0]? = some (r2 i))) := by
  have hvalid : (∀ i, i < N → ¬ size_t (fids i) > size_t w.num_obs) →
      ∀ i, i < N → 0 ≤ fids i ∧ fids i ≤ w.num_obs := by
    intro hall i hi
    exact (size_t_le_iff (hint i hi).1 (hint i hi).2 h0 h1).mp (Nat.le_of_not_gt (hall i hi))
  refine ⟨?_, ?_, ?_, ?_, ?_⟩
  · intro i hi hneg
    refine ⟨?_, size_t_gt_of_neg h0 h1 hneg (hint i hi).1⟩
    have := (hint i hi).1
    unfold size_t
    omega
  · rintro ⟨i, hi, hneg⟩
    have hbad := size_t_gt_of_neg h0 h1 hneg (hint i hi).1
    constructor
    · rcases joincount_run_cases gda1 N fids r w h0 h1 with ⟨hall, _⟩ | ⟨k, _, _, _, _, hrun⟩
      · exact absurd hbad (hall i hi)
      · rw [hrun]
        exact ⟨fids k, rfl⟩
    · rcases bivariate_run_cases gda2 N fids r1 r2 w h0 h1 with
        ⟨hall, _⟩ | ⟨k, _, _, _, _, hrun⟩
      · exact absurd hbad (hall i hi)
      · rw [hrun]
        exact ⟨fids k, rfl⟩
  · intro out hok
    rcases joincount_run_cases gda1 N fids r w h0 h1 with ⟨hall, _⟩ | ⟨k, _, _, _, _, hrun⟩
    · exact hvalid hall
    · rw [hrun] at hok
      exact Except.noConfusion hok
  · intro out hok
    rcases bivariate_run_cases gda2 N fids r1 r2 w h0 h1 with ⟨hall, _⟩ | ⟨k, _, _, _, _, hrun⟩
    · exact hvalid hall
    · rw [hrun] at hok
      exact Except.noConfusion hok
  · intro hv hex
    have hv0 : ∀ i, i < N → 0 ≤ fids i := fun i hi => (hv i hi).1
    have hex' : ∃ i, i < N ∧ fids i = ((0 : Nat) : Int) := hex
    constructor
    · obtain ⟨d, hrun, hd, hu⟩ := joincount_valid_run gda1 N fids r w h0 h1 hv
      obtain ⟨i, hi, hij, _, hval⟩ := scattered_populated hd hv0 0 hex'
      obtain ⟨_, _, _, _, hflag⟩ := scattered_populated hu hv0 0 hex'
      rw [hrun]
      exact ⟨_, rfl, hflag, i, hi, hij, hval⟩
    · obtain ⟨d, hrun, hd1, hd2⟩ := bivariate_valid_run gda2 N fids r1 r2 w h0 h1 hv
      obtain ⟨i, hi, hij, hlast⟩ := exists_last (fun i => fids i = 0) N hex
      have hl : ∀ k, i < k → k < N → fids k ≠ fids i :=
        fun k hik hkn => by rw [hij]; exact hlast k hik hkn
      have e1 := scattered_last hd1 hv0 i hi hl
      have e2 := scattered_last hd2 hv0 i hi hl
      have hz : (fids i).toNat = 0 := by omega
      rw [hz] at e1 e2
      rw [hrun]
      exact ⟨_, d.data1, d.data2, rfl, rfl, i, hi, hij, e1, e2⟩

/-- C9, on `fids = [0, -2]` with observation count 5: the negative id aborts
both adaptors. -/
theorem C9_negative_fid_rejected_witness :
    (∃ arg, (pg_local_joincount (fun _ => ⟨[], []⟩) 2 (cArray [0, -2] 0) (cArray [3, 4] 0)
        ⟨5⟩).result = Except.error (Failure.lwerror
        "pg_local_joincount: fid not match in weights. fid > w.num_obs %d" arg)) ∧
    (∃ arg, (pg_bivariate_local_joincount (fun _ => ⟨[], []⟩) 2 (cArray [0, -2] 0)
        (cArray [3, 4] 0) (cArray [3, 4] 0) ⟨5⟩).result = Except.error (Failure.lwerror
        "pg_bivariate_local_joincount: fid not match in weights. fid > w.num_obs %d" arg)) :=
  (C9_negative_fid_rejected (fun _ => ⟨[], []⟩) (fun _ => ⟨[], []⟩) 2 (cArray [0, -2] 0)
    (cArray [3, 4] 0) (cArray [3, 4] 0) (cArray [3, 4] 0) ⟨5⟩ (by decide) (by decide)
    (by decide)).2.1 ⟨1, by decide, by decide⟩

/-- C10: in both adaptors, for every input with `0 ≤ num_obs` (valid or not),
the densification loop makes no out-of-range write; when the projection loop is
reached every index it reads at lies in `0 .. num_obs`; hence, when the external
result arrays have at least `num_obs + 1` entries, no access of the call is out
of range. -/
theorem C10_accesses_in_range (gda1 : JoinCountCall → LISA)
    (gda2 : MultiJoinCountCall → LISA) (N : Nat) (fids : Nat → Int) (r r1 r2 : Nat → ℚ)
    (w : BinWeight) (h0 : 0 ≤ w.num_obs) (h1 : w.num_obs < 9223372036854775808) :
    joincount_densify N fids r w.num_obs ≠ Except.error Failure.fault ∧
    bivariate_densify N fids r1 r2 w.num_obs ≠ Except.error Failure.fault ∧
    ((pg_local_joincount gda1 N fids r w).calls ≠ [] →
      ∀ i, i < N → (size_t (fids i) : Int) ≤ w.num_obs) ∧
    ((pg_bivariate_local_joincount gda2 N fids r1 r2 w).calls ≠ [] →
      ∀ i, i < N → (size_t (fids i) : Int) ≤ w.num_obs) ∧
    ((∀ a, w.num_obs < ((gda1 a).lisa_c.length : Int) ∧
        w.num_obs < ((gda1 a).lisa_p.length : Int)) →
      (pg_local_joincount gda1 N fids r w).result ≠ Except.error Failure.fault) ∧
    ((∀ a, w.num_obs < ((gda2 a).lisa_c.length : Int) ∧
        w.num_obs < ((gda2 a).lisa_p.length : Int)) →
      (pg_bivariate_local_joincount gda2 N fids r1 r2 w).result ≠
        Except.error Failure.fault) := by
  have hn : size_t w.num_obs = w.num_obs.toNat := size_t_eq_toNat h0 (by omega)
  have hidx : (∀ i, i < N → ¬ size_t (fids i) > size_t w.num_obs) →
      ∀ i, i < N → size_t (fids i) ≤ w.num_obs.toNat := by
    intro hall i hi
    have := hall i hi
    omega
  refine ⟨?_, ?_, ?_, ?_, ?_, ?_⟩
  · rcases joincount_run_cases gda1 N fids r w h0 h1 with
      ⟨_, d, hd, _⟩ | ⟨k, _, _, _, herr, _⟩
    · rw [hd]
      exact fun h => Except.noConfusion h
    · rw [herr]
      exact fun h => Failure.noConfusion (Except.error.inj h)
  · rcases bivariate_run_cases gda2 N fids r1 r2 w h0 h1 with
      ⟨_, d, hd, _⟩ | ⟨k, _, _, _, herr, _⟩
    · rw [hd]
      exact fun h => Except.noConfusion h
    · rw [herr]
      exact fun h => Failure.noConfusion (Except.error.inj h)
  · intro hcalls i hi
    rcases joincount_run_cases gda1 N fids r w h0 h1 with ⟨hall, _⟩ | ⟨k, _, _, _, _, hrun⟩
    · have := hidx hall i hi
      omega
    · rw [hrun] at hcalls
      exact absurd rfl hcalls
  · intro hcalls i hi
    rcases bivariate_run_cases gda2 N fids r1 r2 w h0 h1 with ⟨hall, _⟩ | ⟨k, _, _, _, _, hrun⟩
    · have := hidx hall i hi
      omega
    · rw [hrun] at hcalls
      exact absurd rfl hcalls
  · intro hc
    rcases joincount_run_cases gda1 N fids r w h0 h1 with
      ⟨hall, d, _, hrun, _, _⟩ | ⟨k, _, _, _, _, hrun⟩
    · obtain ⟨out, hout, _, _⟩ := project_loop_spec fids
        (gda1 ⟨w, d.data, d.undefs, 0.05, 8, 999, "complete", 123456789⟩) w.num_obs.toNat
        (by have := (hc ⟨w, d.data, d.undefs, 0.05, 8, 999, "complete", 123456789⟩).1; omega)
        (by have := (hc ⟨w, d.data, d.undefs, 0.05, 8, 999, "complete", 123456789⟩).2; omega)
        N (hidx hall)
      rw [hrun]
      simp only [hout]
      exact fun h => Except.noConfusion h
    · rw [hrun]
      exact fun h => Failure.noConfusion (Except.error.inj h)
  · intro hc
    rcases bivariate_run_cases gda2 N fids r1 r2 w h0 h1 with
      ⟨hall, d, _, hrun, _, _⟩ | ⟨k, _, _, _, _, hrun⟩
    · obtain ⟨out, hout, _, _⟩ := project_loop_spec fids
        (gda2 ⟨w, [d.data1, d.data2],
          [List.replicate (size_t (w.num_obs + 1)) false,
            List.replicate (size_t (w.num_obs + 1)) false],
          0.05, 8, 999, "complete", 123456789⟩) w.num_obs.toNat
        (by have := (hc ⟨w, [d.data1, d.data2],
              [List.replicate (size_t (w.num_obs + 1)) false,
                List.replicate (size_t (w.num_obs + 1)) false],
              0.05, 8, 999, "complete", 123456789⟩).1; omega)
        (by have := (hc ⟨w, [d.data1, d.data2],
              [List.replicate (size_t (w.num_obs + 1)) false,
                List.replicate (size_t (w.num_obs + 1)) false],
              0.05, 8, 999, "complete", 123456789⟩).2; omega)
        N (hidx hall)
      rw [hrun]
      simp only [hout]
      exact fun h => Except.noConfusion h
    · rw [hrun]
      exact fun h => Failure.noConfusion (Except.error.inj h)

/-- C10, on the invalid input `fids = [1, 99]` with observation count 5: neither
densification loop writes out of range. -/
theorem C10_accesses_in_range_witness :
    joincount_densify 2 (cArray [1, 99] 0) (cArray [0, 1] 0) 5 ≠ Except.error Failure.fault ∧
    bivariate_densify 2 (cArray [1, 99] 0) (cArray [0, 1] 0) (cArray [1, 1] 0) 5
      ≠ Except.error Failure.fault :=
  have h := C10_accesses_in_range (fun _ => ⟨[], []⟩) (fun _ => ⟨[], []⟩) 2
    (cArray [1, 99] 0) (cArray [0, 1] 0) (cArray [0, 1] 0) (cArray [1, 1] 0) ⟨5⟩
    (by decide) (by decide)
  ⟨h.1, h.2.1⟩

end PostGeoDa
